import Mathlib

/-!
Verification of the frigate_alerts event-relay service.

The JavaScript source is embedded shallowly: configuration objects become
Lean structures with `Option` fields for optional JSON keys, JavaScript
truthiness of strings and arrays is modelled explicitly, the current wall
clock is passed as an explicit `nowMinutes` / `nowSeconds` parameter, and
network effects (media downloads, Telegram sends) are abstracted by
outcome oracles supplied as function arguments.
-/

namespace FrigateAlerts

/-- JavaScript truthiness of an optional string value: `undefined` and the
empty string are falsy, every other string is truthy. -/
def strTruthy : Option String → Bool
  | none => false
  | some s => s != ""

/-- JavaScript `a || b` on optional string values: returns `a` when truthy,
otherwise returns `b` unchanged (even when `b` is itself falsy). -/
def jsOrS (a b : Option String) : Option String :=
  if strTruthy a then a else b

/-- JavaScript `a ?? b` on optional boolean values: returns `a` when it is
defined (`false` included), otherwise `b`. -/
def jsCoalesce (a b : Option Bool) : Option Bool :=
  if a.isSome then a else b

/-- A `schedule` object from config.json: `{start_time, end_time}`, each key
optional, holding an "HH:MM" string. -/
structure Schedule where
  start_time : Option String := none
  end_time : Option String := none
deriving DecidableEq

/-- The `default_schedule` object from config.json; unlike per-camera and
per-group schedules it also carries `always_send`. -/
structure DefaultSchedule where
  start_time : Option String := none
  end_time : Option String := none
  always_send : Option Bool := none
deriving DecidableEq

/-- One entry of a camera's `group_schedules` map. -/
structure GroupScheduleOverride where
  schedule : Option Schedule := none
  always_send : Option Bool := none
deriving DecidableEq

/-- A group entry in config.json's `groups` map. -/
structure GroupConfig where
  chat_id : Option String := none
  enabled : Option Bool := none
  schedule : Option Schedule := none
  always_send : Option Bool := none
deriving DecidableEq

/-- A camera entry in config.json's `cameras` map. `group_schedules` is a
JSON object, modelled as an association list in key order. -/
structure CameraConfig where
  schedule : Option Schedule := none
  always_send : Option Bool := none
  groups : Option (List String) := none
  labels : Option (List String) := none
  group_schedules : List (String × GroupScheduleOverride) := []
deriving DecidableEq

/-- The loaded configuration (the parts the core logic reads). JSON maps
are association lists in key insertion order, so `Object.keys` is the list
of first components. -/
structure Config where
  groups : List (String × GroupConfig) := []
  cameras : List (String × CameraConfig) := []
  default_schedule : Option DefaultSchedule := none
  default_groups : Option (List String) := none
deriving DecidableEq

/-- `config.cameras?.[cameraName]` -/
def findCamera (cfg : Config) (cameraName : String) : Option CameraConfig :=
  cfg.cameras.lookup cameraName

/-- `config.groups?.[groupName]` -/
def findGroup (cfg : Config) (groupName : String) : Option GroupConfig :=
  cfg.groups.lookup groupName

/-- The built-in fallback used when `config.default_schedule` is absent:
`{start_time: "00:00", end_time: "23:59", always_send: false}`. -/
def builtinDefaultSchedule : DefaultSchedule :=
  { start_time := some "00:00", end_time := some "23:59", always_send := some false }

/-- An event record from the Frigate `/events` feed. `start_time` is in unix
seconds; `end_time` is absent while the source is still recording. -/
structure Event where
  id : String
  camera : String
  label : String
  start_time : Nat
  end_time : Option Nat := none
  has_clip : Bool := false
deriving DecidableEq

/-- The result of `getScheduleForCameraAndGroup`: field values fall through
several `||` chains, so `start_time` / `end_time` are whatever the last
chain element held (possibly `undefined`), while `always_send` ends in
`?? false` and is always a boolean. -/
structure ResolvedSchedule where
  start_time : Option String
  end_time : Option String
  always_send : Bool
deriving DecidableEq

/-- `getScheduleForCameraAndGroup(cameraName, groupName)` from config.js:
four candidate layers (camera group override, camera, group, default), an
anchor chosen by the first layer defining a schedule object or an
`always_send` value, then per-field `||` / `??` chains from that anchor
down to the default schedule. -/
def getScheduleForCameraAndGroup (cfg : Config) (cameraName groupName : String) :
    ResolvedSchedule :=
  let cameraConfig := findCamera cfg cameraName
  let groupConfig := findGroup cfg groupName
  let defaultSchedule := cfg.default_schedule.getD builtinDefaultSchedule
  let cameraGroupConfig := cameraConfig.bind (fun c => c.group_schedules.lookup groupName)
  let cgSched := cameraGroupConfig.bind (fun o => o.schedule)
  let camSched := cameraConfig.bind (fun c => c.schedule)
  let grpSched := groupConfig.bind (fun g => g.schedule)
  let cgAlways := cameraGroupConfig.bind (fun o => o.always_send)
  let camAlways := cameraConfig.bind (fun c => c.always_send)
  let grpAlways := groupConfig.bind (fun g => g.always_send)
  if cgSched.isSome || cgAlways.isSome then
    { start_time :=
        jsOrS (cgSched.bind (fun s => s.start_time))
          (jsOrS (camSched.bind (fun s => s.start_time))
            (jsOrS (grpSched.bind (fun s => s.start_time)) defaultSchedule.start_time)),
      end_time :=
        jsOrS (cgSched.bind (fun s => s.end_time))
          (jsOrS (camSched.bind (fun s => s.end_time))
            (jsOrS (grpSched.bind (fun s => s.end_time)) defaultSchedule.end_time)),
      always_send :=
        (jsCoalesce cgAlways
          (jsCoalesce camAlways
            (jsCoalesce grpAlways defaultSchedule.always_send))).getD false }
  else if camSched.isSome || camAlways.isSome then
    { start_time :=
        jsOrS (camSched.bind (fun s => s.start_time))
          (jsOrS (grpSched.bind (fun s => s.start_time)) defaultSchedule.start_time),
      end_time :=
        jsOrS (camSched.bind (fun s => s.end_time))
          (jsOrS (grpSched.bind (fun s => s.end_time)) defaultSchedule.end_time),
      always_send :=
        (jsCoalesce camAlways (jsCoalesce grpAlways defaultSchedule.always_send)).getD false }
  else if grpSched.isSome || grpAlways.isSome then
    { start_time :=
        jsOrS (grpSched.bind (fun s => s.start_time)) defaultSchedule.start_time,
      end_time :=
        jsOrS (grpSched.bind (fun s => s.end_time)) defaultSchedule.end_time,
      always_send := (jsCoalesce grpAlways defaultSchedule.always_send).getD false }
  else
    { start_time := defaultSchedule.start_time,
      end_time := defaultSchedule.end_time,
      always_send := defaultSchedule.always_send.getD false }

/-- One layer of the spec's layered view of schedule resolution: whether the
layer carries a schedule object, its two time fields, and its
`always_send` field. -/
structure LayerFields where
  schedPresent : Bool
  start : Option String
  stop : Option String
  always : Option Bool
deriving DecidableEq

/-- Modelled from the spec: a layer "defines any field" when it has a
schedule object or an `always_send` value. -/
def definesAny (L : LayerFields) : Bool :=
  L.schedPresent || L.always.isSome

/-- The four layers for a (camera, group) pair, most specific first:
camera group override, camera, group, default schedule. -/
def scheduleLayers (cfg : Config) (cameraName groupName : String) : List LayerFields :=
  let cameraConfig := findCamera cfg cameraName
  let groupConfig := findGroup cfg groupName
  let defaultSchedule := cfg.default_schedule.getD builtinDefaultSchedule
  let cameraGroupConfig := cameraConfig.bind (fun c => c.group_schedules.lookup groupName)
  let cgSched := cameraGroupConfig.bind (fun o => o.schedule)
  let camSched := cameraConfig.bind (fun c => c.schedule)
  let grpSched := groupConfig.bind (fun g => g.schedule)
  [ { schedPresent := cgSched.isSome,
      start := cgSched.bind (fun s => s.start_time),
      stop := cgSched.bind (fun s => s.end_time),
      always := cameraGroupConfig.bind (fun o => o.always_send) },
    { schedPresent := camSched.isSome,
      start := camSched.bind (fun s => s.start_time),
      stop := camSched.bind (fun s => s.end_time),
      always := cameraConfig.bind (fun c => c.always_send) },
    { schedPresent := grpSched.isSome,
      start := grpSched.bind (fun s => s.start_time),
      stop := grpSched.bind (fun s => s.end_time),
      always := groupConfig.bind (fun g => g.always_send) },
    { schedPresent := true,
      start := defaultSchedule.start_time,
      stop := defaultSchedule.end_time,
      always := defaultSchedule.always_send } ]

/-- Scan a field column downward: take the first truthy value; when none is
truthy the last (least specific) value is returned unchanged, mirroring a
JavaScript `||` chain. -/
def scanStr : List (Option String) → Option String
  | [] => none
  | [x] => x
  | x :: y :: xs => if strTruthy x then x else scanStr (y :: xs)

/-- Scan an `always_send` column downward: first defined value wins,
mirroring a JavaScript `??` chain. -/
def scanBool : List (Option Bool) → Option Bool
  | [] => none
  | [x] => x
  | x :: y :: xs => if x.isSome then x else scanBool (y :: xs)

/-- Modelled from the spec: field-wise resolution. Pick the most specific of
the three override layers that defines any field as the anchor (the default
layer when none does), then resolve each of `start_time`, `end_time` and
`always_send` independently by scanning from the anchor down through all
less specific layers. -/
def resolveFieldwise (cfg : Config) (cameraName groupName : String) : ResolvedSchedule :=
  let Ls := scheduleLayers cfg cameraName groupName
  let anchor := (Ls.take 3).findIdx definesAny
  let tail := Ls.drop anchor
  { start_time := scanStr (tail.map (fun L => L.start)),
    end_time := scanStr (tail.map (fun L => L.stop)),
    always_send := (scanBool (tail.map (fun L => L.always))).getD false }

/-- The camera of the spec's field-wise precedence example: a group override
for "sec" giving only `start_time = "20:00"`, and a camera schedule giving
only `end_time = "07:00"`. -/
def fieldwiseExampleCamera : CameraConfig :=
  { schedule := some { end_time := some "07:00" },
    group_schedules := [("sec", { schedule := some { start_time := some "20:00" } })] }

/-- Configuration for the field-wise precedence example. -/
def fieldwiseExampleConfig : Config :=
  { groups := [("sec", { chat_id := some "-100" })],
    cameras := [("cam1", fieldwiseExampleCamera)] }

/-- `str.split(":")`, modelled on the character list. -/
def splitOnColon (s : String) : List String :=
  (s.toList.splitOn ':').map (fun cs => String.mk cs)

/-- `Number(str)` restricted to the decimal digit strings that occur in
"HH:MM" fields: all-digit strings parse to their value, the empty string
and non-digit strings to `none` (the caller turns that into 0, which is
what `Number("")` gives; other NaN cases do not arise for time fields). -/
def parseDecimal (cs : List Char) : Option Nat :=
  cs.foldl
    (fun acc c =>
      match acc with
      | none => none
      | some n => if c.isDigit then some (n * 10 + (c.toNat - 48)) else none)
    (if cs.isEmpty then none else some 0)

/-- Parse an "HH:MM" string into minutes since midnight, as
`startTime.split(":").map(Number)` followed by `hour * 60 + minute` does. -/
def timeToMinutes (s : String) : Nat :=
  let parts := splitOnColon s
  let hour := (((parts.get? 0).map String.toList).bind parseDecimal).getD 0
  let minute := (((parts.get? 1).map String.toList).bind parseDecimal).getD 0
  hour * 60 + minute

/-- The minute-of-day core of `isWithinSchedule` from config.js: inclusive
on both ends, wrapping past midnight when the start minute exceeds the end
minute. -/
def isWithinScheduleM (nowMinutes startMinutes endMinutes : Nat) : Bool :=
  if startMinutes ≤ endMinutes then
    decide (nowMinutes ≥ startMinutes) && decide (nowMinutes ≤ endMinutes)
  else
    decide (nowMinutes ≥ startMinutes) || decide (nowMinutes ≤ endMinutes)

/-- `isWithinSchedule(startTime, endTime)` from config.js, with the current
wall-clock minute passed explicitly instead of read from `new Date()`. -/
def isWithinSchedule (nowMinutes : Nat) (startTime endTime : String) : Bool :=
  isWithinScheduleM nowMinutes (timeToMinutes startTime) (timeToMinutes endTime)

/-- `shouldAlertGroup(cameraName, groupName)` from config.js. A resolved
`start_time` / `end_time` can only be `none` when `config.default_schedule`
is present with the field missing; that corner would throw in JavaScript
and is modelled here by parsing the empty string. -/
def shouldAlertGroup (cfg : Config) (nowMinutes : Nat) (cameraName groupName : String) :
    Bool :=
  let schedule := getScheduleForCameraAndGroup cfg cameraName groupName
  if schedule.always_send then true
  else isWithinSchedule nowMinutes (schedule.start_time.getD "") (schedule.end_time.getD "")

/-- `getGroupNamesForCamera(cameraName)` from config.js:
`cameraConfig?.groups || config.default_groups || Object.keys(config.groups)`.
A JavaScript array is truthy even when empty, so each `||` step only falls
through on a missing key. -/
def getGroupNamesForCamera (cfg : Config) (cameraName : String) : List String :=
  (((findCamera cfg cameraName).bind (fun c => c.groups)).or cfg.default_groups).getD
    (cfg.groups.map (fun p => p.1))

/-- A `{name, chat_id}` record produced by `getGroupsForCamera`. -/
structure GroupRef where
  name : String
  chat_id : Option String
deriving DecidableEq

/-- `getGroupsForCamera(cameraName)` from config.js: the camera's group
names, minus groups explicitly disabled, mapped to their chat ids, minus
entries whose `chat_id` is missing or falsy. -/
def getGroupsForCamera (cfg : Config) (cameraName : String) : List GroupRef :=
  ((((getGroupNamesForCamera cfg cameraName).filter
        (fun name => !(((findGroup cfg name).bind (fun g => g.enabled)) == some false))).map
      (fun name => { name := name, chat_id := (findGroup cfg name).bind (fun g => g.chat_id) }))).filter
    (fun g => strTruthy g.chat_id)

/-- A `{name, chat_id, schedule}` record produced by `getGroupsToAlert`. -/
structure AlertGroup where
  name : String
  chat_id : Option String
  schedule : ResolvedSchedule
deriving DecidableEq

/-- `getGroupsToAlert(event)` from config.js: the camera's eligible groups
filtered by `shouldAlertGroup`, each paired with its resolved schedule. -/
def getGroupsToAlert (cfg : Config) (nowMinutes : Nat) (ev : Event) : List AlertGroup :=
  ((getGroupsForCamera cfg ev.camera).filter
      (fun g => shouldAlertGroup cfg nowMinutes ev.camera g.name)).map
    (fun g =>
      { name := g.name, chat_id := g.chat_id,
        schedule := getScheduleForCameraAndGroup cfg ev.camera g.name })

/-- `shouldAlertAnyGroup(event)` from config.js. -/
def shouldAlertAnyGroup (cfg : Config) (nowMinutes : Nat) (ev : Event) : Bool :=
  decide (0 < (getGroupsToAlert cfg nowMinutes ev).length)

/-- `getAllowedLabels(cameraName)` from config.js: `labels || null`. A
JavaScript array is truthy even when empty, so a present-but-empty `labels`
list is returned as-is rather than collapsed to `null`. -/
def getAllowedLabels (cfg : Config) (cameraName : String) : Option (List String) :=
  (findCamera cfg cameraName).bind (fun c => c.labels)

/-- `isLabelAllowed(event)` from config.js: no configured list allows every
label; a configured list (empty included) allows exactly its members. -/
def isLabelAllowed (cfg : Config) (ev : Event) : Bool :=
  match getAllowedLabels cfg ev.camera with
  | none => true
  | some allowed => allowed.contains ev.label

/-- The watermark owned by the poll loop: `lastEvent` (initially unset) and
`lastTimestamp` (initially 0), from index.js. -/
structure PollState where
  lastEvent : Option Event
  lastTimestamp : Nat
deriving DecidableEq

/-- Grace period slept before scanning a non-empty fetch, in milliseconds. -/
def GRACE_PERIOD_MS : Nat := 5000

/-- `Date.now() / 1000 - 10 * 60`: the rolling cutoff is ten minutes. -/
def WATERMARK_CUTOFF_SECONDS : Nat := 600

/-- The `for (const event of events)` scan inside `fetchFrigateEvents`
(index.js), for the case where `lastEvent` is set: stop at the first feed
entry whose id equals the watermark id, skip entries failing the label
filter, the schedule filter, or the staleness cutoff, and collect the
events handed to `processEvent`. -/
def scanEvents (cfg : Config) (nowMinutes lastTimestamp : Nat) (lastId : String) :
    List Event → List Event
  | [] => []
  | ev :: rest =>
    if ev.id == lastId then []
    else if !(isLabelAllowed cfg ev) then
      scanEvents cfg nowMinutes lastTimestamp lastId rest
    else if !(shouldAlertAnyGroup cfg nowMinutes ev) then
      scanEvents cfg nowMinutes lastTimestamp lastId rest
    else if ev.start_time < lastTimestamp then
      scanEvents cfg nowMinutes lastTimestamp lastId rest
    else
      ev :: scanEvents cfg nowMinutes lastTimestamp lastId rest

/-- One cycle of `fetchFrigateEvents` (index.js) after a successful fetch:
returns the events handed to `processEvent` and the updated watermark. An
empty feed leaves the watermark untouched; otherwise the scan breaks
immediately when `lastEvent` is unset, and the watermark becomes the head
of the feed together with `now − 10 minutes`. -/
def pollCycle (cfg : Config) (nowMinutes nowSeconds : Nat) (st : PollState)
    (events : List Event) : List Event × PollState :=
  if events.isEmpty then ([], st)
  else
    let processed :=
      match st.lastEvent with
      | none => []
      | some le => scanEvents cfg nowMinutes st.lastTimestamp le.id events
    (processed,
      { lastEvent := events.head?, lastTimestamp := nowSeconds - WATERMARK_CUTOFF_SECONDS })

/-- The combined drop conditions of the scan, as one predicate. -/
def eventPasses (cfg : Config) (nowMinutes lastTimestamp : Nat) (ev : Event) : Bool :=
  isLabelAllowed cfg ev && shouldAlertAnyGroup cfg nowMinutes ev &&
    !(decide (ev.start_time < lastTimestamp))

/-- The three media kinds of the cascade, in the order of
`getMediaDownloaders` (frigate.js). -/
inductive MediaKind
  | clip
  | snapshot
  | thumbnail
deriving DecidableEq

/-- The cascade order: clip, then snapshot, then thumbnail. -/
def mediaCascadeOrder : List MediaKind := [.clip, .snapshot, .thumbnail]

/-- `sendMediaAlertToGroups(event, mediaBuffer, message, fileName)` from
telegram.js. Recipients are recomputed here from the configuration via
`getGroupsToAlert`; `accept` abstracts whether the (internally retried)
Telegram media send to a chat ultimately succeeds. Returns the
`results.every(Boolean)` flag and the chats that accepted the media. -/
def sendMediaAlertToGroups (cfg : Config) (nowMinutes : Nat) (ev : Event)
    (mediaBuffer : Nat) (accept : String → Bool) : Bool × List String :=
  let groups := getGroupsToAlert cfg nowMinutes ev
  if groups.isEmpty then (false, [])
  else
    let results := groups.map (fun g => (g.chat_id.getD "", accept (g.chat_id.getD "")))
    ((results.all (fun r => r.2)), ((results.filter (fun r => r.2)).map (fun r => r.1)))

/-- `sendTextAlertToGroups(event, message)` from telegram.js: recomputes the
recipients and returns the chats a text message is sent to (the text send
swallows per-chat errors, so every recipient is attempted); an empty
recipient set returns immediately. -/
def sendTextAlertToGroups (cfg : Config) (nowMinutes : Nat) (ev : Event) : List String :=
  let groups := getGroupsToAlert cfg nowMinutes ev
  if groups.isEmpty then [] else groups.map (fun g => g.chat_id.getD "")

/-- Observable outcome of one event's dispatch: which media kinds had their
download attempted, which (kind, chat) media deliveries succeeded, and which
chats received the final text alert. -/
structure DispatchLog where
  attempts : List MediaKind
  mediaDeliveries : List (MediaKind × String)
  textDeliveries : List String
deriving DecidableEq

/-- The `send` loop of `processEvent` (index.js) over a list of remaining
media kinds. `fetch` gives the retried download outcome per kind (`none`
models the throw after retry exhaustion, caught by the loop); `accept`
gives each chat's acceptance of each kind. A kind whose media every
recipient accepts ends the loop; otherwise its successful deliveries are
kept (never retracted) and the next kind is tried; after the last kind the
degraded text alert goes out. -/
def runCascade (cfg : Config) (nowMinutes : Nat) (ev : Event)
    (fetch : MediaKind → Option Nat) (accept : MediaKind → String → Bool) :
    List MediaKind → DispatchLog
  | [] =>
    { attempts := [], mediaDeliveries := [],
      textDeliveries := sendTextAlertToGroups cfg nowMinutes ev }
  | kind :: rest =>
    match fetch kind with
    | some buffer =>
      let sendResult := sendMediaAlertToGroups cfg nowMinutes ev buffer (accept kind)
      if sendResult.1 then
        { attempts := [kind],
          mediaDeliveries := sendResult.2.map (fun c => (kind, c)),
          textDeliveries := [] }
      else
        let tailLog := runCascade cfg nowMinutes ev fetch accept rest
        { attempts := kind :: tailLog.attempts,
          mediaDeliveries := sendResult.2.map (fun c => (kind, c)) ++ tailLog.mediaDeliveries,
          textDeliveries := tailLog.textDeliveries }
    | none =>
      let tailLog := runCascade cfg nowMinutes ev fetch accept rest
      { attempts := kind :: tailLog.attempts,
        mediaDeliveries := tailLog.mediaDeliveries,
        textDeliveries := tailLog.textDeliveries }

/-- The whole media-then-text dispatch of `processEvent` for one event. -/
def processEventDispatch (cfg : Config) (nowMinutes : Nat) (ev : Event)
    (fetch : MediaKind → Option Nat) (accept : MediaKind → String → Bool) : DispatchLog :=
  runCascade cfg nowMinutes ev fetch accept mediaCascadeOrder

/-- Whether the cascade stops at `kind`: its download succeeded and every
recipient accepted the media. -/
def stageSucceeds (cfg : Config) (nowMinutes : Nat) (ev : Event)
    (fetch : MediaKind → Option Nat) (accept : MediaKind → String → Bool)
    (kind : MediaKind) : Bool :=
  match fetch kind with
  | none => false
  | some buffer => (sendMediaAlertToGroups cfg nowMinutes ev buffer (accept kind)).1

/-- The media deliveries contributed by one kind: none when its download
failed, otherwise the chats that accepted it. -/
def stageDeliveries (cfg : Config) (nowMinutes : Nat) (ev : Event)
    (fetch : MediaKind → Option Nat) (accept : MediaKind → String → Bool)
    (kind : MediaKind) : List (MediaKind × String) :=
  match fetch kind with
  | none => []
  | some buffer =>
    (sendMediaAlertToGroups cfg nowMinutes ev buffer (accept kind)).2.map (fun c => (kind, c))

/-- `MIN_BUFFER_SIZE` from frigate.js: a body below 1 KB is treated as an
error page rather than real media. -/
def MIN_BUFFER_SIZE : Nat := 1024

/-- One attempt inside `downloadWithRetry` (frigate.js): the wrapped fetch
either throws, or returns a buffer that is rejected as a failure when its
size is below `MIN_BUFFER_SIZE`. `fn k` is the outcome (error, or buffer
size) of the k-th invocation of the wrapped fetch. -/
def attemptOutcome (fn : Nat → Except String Nat) (k : Nat) : Except String Nat :=
  match fn k with
  | .error e => .error e
  | .ok size =>
    if size < MIN_BUFFER_SIZE then .error "Response too small, likely not valid media"
    else .ok size

/-- Whether the k-th attempt counts as a failure (thrown, or undersized). -/
def attemptFails (fn : Nat → Except String Nat) (k : Nat) : Bool :=
  match attemptOutcome fn k with
  | .error _ => true
  | .ok _ => false

/-- The retry loop of `downloadWithRetry` (frigate.js), with the attempt
counter and the remaining iterations made explicit
(`attempt + remaining = total + 1` at every call). Returns the final
outcome together with the list of backoff delays slept, in order; after a
failed attempt `k < total` the loop sleeps `baseDelay * k`. -/
def downloadWithRetryGo (fn : Nat → Except String Nat) (baseDelay total : Nat)
    (lastError : String) : Nat → Nat → Except String Nat × List Nat
  | _, 0 => (.error lastError, [])
  | attempt, remaining + 1 =>
    match attemptOutcome fn attempt with
    | .ok size => (.ok size, [])
    | .error e =>
      if attempt < total then
        let next := downloadWithRetryGo fn baseDelay total e (attempt + 1) remaining
        (next.1, baseDelay * attempt :: next.2)
      else
        (.error e, [])

/-- `downloadWithRetry(fn, label)` from frigate.js, parameterized by the
configured `MEDIA_RETRY_DELAY_MS` base delay and `MEDIA_RETRY_ATTEMPTS`
budget (default 4): attempts run from 1 to the budget and the last error is
rethrown once the budget is spent. -/
def downloadWithRetry (fn : Nat → Except String Nat) (baseDelay attempts : Nat) :
    Except String Nat × List Nat :=
  downloadWithRetryGo fn baseDelay attempts "undefined" 1 attempts

/-- The default `media_retry_attempts` value. -/
def DEFAULT_MEDIA_RETRY_ATTEMPTS : Nat := 4

/-- JavaScript truthiness of `event.end_time`: absent or zero is falsy. -/
def endTimeTruthy (ev : Event) : Bool :=
  match ev.end_time with
  | none => false
  | some t => t != 0

/-- Delay slept by `processEvent` (index.js) before dispatching an event
that has a clip but no end time yet, in milliseconds. -/
def CLIP_PREWAIT_DELAY_MS : Nat := 7000

/-- Placeholder clip duration used by `processEvent`: `start_time + 5`. -/
def CLIP_PREWAIT_PLACEHOLDER_SECONDS : Nat := 5

/-- Delay slept by `downloadVideo` (frigate.js) when the end time is still
absent, in milliseconds. -/
def CLIP_FETCH_WAIT_MS : Nat := 20000

/-- Placeholder clip duration used by `downloadVideo`: `start_time + 17`. -/
def CLIP_FETCH_PLACEHOLDER_SECONDS : Nat := 17

/-- The end-time synthesis step at the top of `processEvent` (index.js):
for an event with a clip but no end time, wait 7 s and fill in
`start_time + 5` before dispatching. Returns the wait and the event used
from then on. -/
def processEventClipPrep (ev : Event) : Nat × Event :=
  if ev.has_clip && !(endTimeTruthy ev) then
    (CLIP_PREWAIT_DELAY_MS,
      { ev with end_time := some (ev.start_time + CLIP_PREWAIT_PLACEHOLDER_SECONDS) })
  else (0, ev)

/-- The end-time synthesis step at the top of `downloadVideo` (frigate.js):
when the end time is still absent, wait 20 s and fill in `start_time + 17`
before building the clip URL. -/
def downloadVideoPrep (ev : Event) : Nat × Event :=
  if !(endTimeTruthy ev) then
    (CLIP_FETCH_WAIT_MS,
      { ev with end_time := some (ev.start_time + CLIP_FETCH_PLACEHOLDER_SECONDS) })
  else (0, ev)

/-- C1: schedule resolution is field-wise. For every configuration and
(camera, group) pair, `getScheduleForCameraAndGroup` equals the spec's
field-wise procedure: anchor at the most specific layer defining any field,
then resolve `start_time`, `end_time` and `always_send` independently by
scanning from the anchor down through all less-specific layers. In
particular, with `camera.group_schedules.sec.schedule.start_time = "20:00"`
(no end time) and `camera.schedule.end_time = "07:00"`, resolving
(camera, "sec") yields start "20:00" and end "07:00". -/
theorem c1_fieldwise_resolution :
    (∀ (cfg : Config) (cameraName groupName : String),
        getScheduleForCameraAndGroup cfg cameraName groupName =
          resolveFieldwise cfg cameraName groupName) ∧
    getScheduleForCameraAndGroup fieldwiseExampleConfig "cam1" "sec" =
      { start_time := some "20:00", end_time := some "07:00", always_send := false } := by
  constructor
  · intro cfg cameraName groupName
    unfold getScheduleForCameraAndGroup resolveFieldwise scheduleLayers
    set cameraConfig := findCamera cfg cameraName with hc
    set groupConfig := findGroup cfg groupName with hg
    set defaultSchedule := cfg.default_schedule.getD builtinDefaultSchedule with hd
    set cameraGroupConfig :=
      cameraConfig.bind (fun c => c.group_schedules.lookup groupName) with hcg
    set cgSched := cameraGroupConfig.bind (fun o => o.schedule) with h1
    set camSched := cameraConfig.bind (fun c => c.schedule) with h2
    set grpSched := groupConfig.bind (fun g => g.schedule) with h3
    set cgAlways := cameraGroupConfig.bind (fun o => o.always_send) with h4
    set camAlways := cameraConfig.bind (fun c => c.always_send) with h5
    set grpAlways := groupConfig.bind (fun g => g.always_send) with h6
    by_cases hA : cgSched.isSome || cgAlways.isSome <;>
      by_cases hB : camSched.isSome || camAlways.isSome <;>
        by_cases hC : grpSched.isSome || grpAlways.isSome <;>
          simp [hA, hB, hC, definesAny, List.findIdx, List.findIdx.go, scanStr, scanBool,
            jsOrS, jsCoalesce]
  · decide

/-- C4: minute-of-day window membership. For every window and every current
minute, a non-wrapping window (start ≤ end) contains the minute iff it lies
between the two inclusive bounds, and a wrapping window (start > end)
contains it iff it is at or after the start or at or before the end; for
the 22:00–06:00 window the code is in-window at 23:00, at exactly 22:00 and
at exactly 06:00, and out of window at 12:00. -/
theorem c4_window_membership :
    (∀ nowMinutes startMinutes endMinutes : Nat,
        isWithinScheduleM nowMinutes startMinutes endMinutes = true ↔
          ((startMinutes ≤ endMinutes ∧
              startMinutes ≤ nowMinutes ∧ nowMinutes ≤ endMinutes) ∨
           (endMinutes < startMinutes ∧
              (startMinutes ≤ nowMinutes ∨ nowMinutes ≤ endMinutes)))) ∧
    isWithinSchedule (23 * 60) "22:00" "06:00" = true ∧
    isWithinSchedule (22 * 60) "22:00" "06:00" = true ∧
    isWithinSchedule (6 * 60) "22:00" "06:00" = true ∧
    isWithinSchedule (12 * 60) "22:00" "06:00" = false := by
  refine ⟨?_, by decide, by decide, by decide, by decide⟩
  intro nowMinutes startMinutes endMinutes
  unfold isWithinScheduleM
  split_ifs with h <;> simp <;> omega

/-- A camera whose configuration has `labels: []`. -/
def labelBlockCamera : CameraConfig := { labels := some [] }

/-- A camera with no `labels` key at all. -/
def labelOpenCamera : CameraConfig := {}

/-- Configuration with one empty-allow-list camera and one unrestricted
camera. -/
def labelExampleConfig : Config :=
  { groups := [("g", { chat_id := some "-1" })],
    cameras := [("lockedcam", labelBlockCamera), ("opencam", labelOpenCamera)] }

/-- An event on the empty-allow-list camera. -/
def labelBlockEvent : Event :=
  { id := "e1", camera := "lockedcam", label := "person", start_time := 0 }

/-- An event on the unrestricted camera. -/
def labelOpenEvent : Event :=
  { id := "e2", camera := "opencam", label := "person", start_time := 0 }

/-- C10: a present-but-empty `labels` list blocks every label, while an
absent `labels` field allows every label. JavaScript treats an empty array
as truthy, so `labels || null` keeps the empty list and
`allowedLabels.includes(label)` is then false for every label. -/
theorem c10_empty_label_list_blocks (cfg₁ : Config) (ev₁ : Event) (cc₁ : CameraConfig)
    (cfg₂ : Config) (ev₂ : Event) (cc₂ : CameraConfig)
    (h₁ : findCamera cfg₁ ev₁.camera = some cc₁) (hl₁ : cc₁.labels = some [])
    (h₂ : findCamera cfg₂ ev₂.camera = some cc₂) (hl₂ : cc₂.labels = none) :
    isLabelAllowed cfg₁ ev₁ = false ∧ isLabelAllowed cfg₂ ev₂ = true := by
  constructor
  · unfold isLabelAllowed getAllowedLabels
    rw [h₁]
    simp [hl₁]
  · unfold isLabelAllowed getAllowedLabels
    rw [h₂]
    simp [hl₂]

/-- Witness for C10 at the concrete two-camera configuration. -/
theorem c10_witness :
    isLabelAllowed labelExampleConfig labelBlockEvent = false ∧
    isLabelAllowed labelExampleConfig labelOpenEvent = true :=
  c10_empty_label_list_blocks labelExampleConfig labelBlockEvent labelBlockCamera
    labelExampleConfig labelOpenEvent labelOpenCamera (by decide) rfl (by decide) rfl

/-- The scan equals: truncate the feed at the watermark id, then filter by
the label, schedule and staleness conditions. -/
theorem scanEvents_eq_takeWhile_filter (cfg : Config) (nowMinutes lastTimestamp : Nat)
    (lastId : String) (events : List Event) :
    scanEvents cfg nowMinutes lastTimestamp lastId events =
      (events.takeWhile (fun e => e.id != lastId)).filter
        (eventPasses cfg nowMinutes lastTimestamp) := by
  induction events with
  | nil => rfl
  | cons ev rest ih =>
    unfold scanEvents
    by_cases hid : ev.id == lastId
    · have hid2 : ev.id = lastId := by simpa using hid
      simp [hid, hid2, List.takeWhile_cons]
    · have hid2 : ¬(ev.id = lastId) := by simpa using hid
      by_cases hl : isLabelAllowed cfg ev <;>
        by_cases hs : shouldAlertAnyGroup cfg nowMinutes ev <;>
          by_cases ht : ev.start_time < lastTimestamp <;>
            simp [hid, hid2, hl, hs, ht, ih, List.takeWhile_cons, List.filter_cons,
              eventPasses]

/-- Configuration for the dedup example: a single always-send group with a
chat id, no camera restrictions. -/
def dedupConfig : Config :=
  { groups := [("g", { chat_id := some "-1", always_send := some true })] }

/-- Feed event E5 (newest). -/
def eventE5 : Event := { id := "E5", camera := "cam", label := "person", start_time := 1000 }

/-- Feed event E4 (the stored watermark event). -/
def eventE4 : Event := { id := "E4", camera := "cam", label := "person", start_time := 900 }

/-- Feed event E3 (older than the watermark). -/
def eventE3 : Event := { id := "E3", camera := "cam", label := "person", start_time := 800 }

/-- Watermark state whose `lastEventId` is E4. -/
def dedupState : PollState := { lastEvent := some eventE4, lastTimestamp := 0 }

/-- C2: poll-cycle deduplication against the watermark. With a stored
watermark event, the processed events are exactly the prefix of the feed
before the first occurrence of the watermark id, filtered by the intake
conditions — so feed [E5, E4, E3] with watermark E4 processes only E5. On
the very first cycle (`lastEvent` unset) nothing is processed, and a
non-empty feed only updates the watermark to the feed head and the rolling
ten-minute cutoff. -/
theorem c2_dedup_watermark :
    (∀ (cfg : Config) (nowMinutes nowSeconds : Nat) (st : PollState) (events : List Event)
        (le : Event), st.lastEvent = some le →
        (pollCycle cfg nowMinutes nowSeconds st events).1 =
          (events.takeWhile (fun e => e.id != le.id)).filter
            (eventPasses cfg nowMinutes st.lastTimestamp)) ∧
    (∀ (cfg : Config) (nowMinutes nowSeconds : Nat) (st : PollState) (events : List Event),
        st.lastEvent = none →
        (pollCycle cfg nowMinutes nowSeconds st events).1 = [] ∧
        (events ≠ [] →
          (pollCycle cfg nowMinutes nowSeconds st events).2 =
            { lastEvent := events.head?,
              lastTimestamp := nowSeconds - WATERMARK_CUTOFF_SECONDS })) ∧
    (pollCycle dedupConfig 0 2000 dedupState [eventE5, eventE4, eventE3]).1 = [eventE5] := by
  refine ⟨?_, ?_, ?_⟩
  · intro cfg nowMinutes nowSeconds st events le hle
    unfold pollCycle
    rcases events with _ | ⟨ev, rest⟩
    · simp
    · simp [hle, scanEvents_eq_takeWhile_filter]
  · intro cfg nowMinutes nowSeconds st events hle
    unfold pollCycle
    rcases events with _ | ⟨ev, rest⟩
    · simp
    · simp [hle]
  · decide

/-- Witness for C2: both branches applied at the concrete feed. -/
theorem c2_witness :
    (pollCycle dedupConfig 0 2000 dedupState [eventE5, eventE4, eventE3]).1 = [eventE5] ∧
    (pollCycle dedupConfig 0 2000 { lastEvent := none, lastTimestamp := 0 } [eventE5]).1 =
      [] := by
  have h1 := c2_dedup_watermark.1 dedupConfig 0 2000 dedupState [eventE5, eventE4, eventE3]
    eventE4 rfl
  have h2 := (c2_dedup_watermark.2.1 dedupConfig 0 2000
    { lastEvent := none, lastTimestamp := 0 } [eventE5] rfl).1
  exact ⟨h1.trans (by decide), h2⟩

/-- Closed form of the cascade loop over any remaining kind list: kinds are
attempted up to and including the first fully-accepted one, each attempted
kind contributes its successful deliveries (kept, never retracted), and the
degraded text alert goes out exactly when no kind fully succeeds. -/
theorem runCascade_closed (cfg : Config) (nowMinutes : Nat) (ev : Event)
    (fetch : MediaKind → Option Nat) (accept : MediaKind → String → Bool)
    (kinds : List MediaKind) :
    runCascade cfg nowMinutes ev fetch accept kinds =
      { attempts :=
          kinds.take (kinds.findIdx (stageSucceeds cfg nowMinutes ev fetch accept) + 1),
        mediaDeliveries :=
          (kinds.take
              (kinds.findIdx (stageSucceeds cfg nowMinutes ev fetch accept) + 1)).flatMap
            (stageDeliveries cfg nowMinutes ev fetch accept),
        textDeliveries :=
          if kinds.findIdx (stageSucceeds cfg nowMinutes ev fetch accept) = kinds.length
          then sendTextAlertToGroups cfg nowMinutes ev else [] } := by
  induction kinds with
  | nil => rfl
  | cons kind rest ih =>
    by_cases hk : stageSucceeds cfg nowMinutes ev fetch accept kind
    · rcases hf : fetch kind with _ | buffer
      · rw [stageSucceeds, hf] at hk
        exact absurd hk (by simp)
      · have hsend : (sendMediaAlertToGroups cfg nowMinutes ev buffer (accept kind)).1 =
            true := by
          rw [stageSucceeds, hf] at hk
          exact hk
        unfold runCascade
        simp [hf, hsend, hk, List.findIdx_cons, stageDeliveries]
    · unfold runCascade
      rcases hf : fetch kind with _ | buffer
      · simp [hf, hk, List.findIdx_cons, ih, stageDeliveries, Nat.succ_inj]
      · have hsend : (sendMediaAlertToGroups cfg nowMinutes ev buffer (accept kind)).1 =
            false := by
          rw [stageSucceeds, hf] at hk
          exact Bool.not_eq_true _ ▸ (by simpa using hk)
        simp [hf, hsend, hk, List.findIdx_cons, ih, stageDeliveries, Nat.succ_inj]

/-- Configuration for the cascade examples: two always-send groups. -/
def cascadeConfig : Config :=
  { groups := [("alpha", { chat_id := some "-10", always_send := some true }),
               ("beta", { chat_id := some "-20", always_send := some true })] }

/-- The event used in the cascade examples. -/
def cascadeEvent : Event :=
  { id := "ev1", camera := "cam", label := "person", start_time := 100 }

/-- Fetch outcomes for the spec's fallback scenario: the clip download
exhausts its retries, snapshot and thumbnail succeed. -/
def cascadeFetch : MediaKind → Option Nat
  | .clip => none
  | .snapshot => some 2048
  | .thumbnail => some 2048

/-- Acceptance for the spec's fallback scenario: one of the two recipients
rejects the snapshot, everything else is accepted. -/
def cascadeAccept : MediaKind → String → Bool
  | .snapshot, chat => chat == "-10"
  | _, _ => true

/-- C3: cascade advance on partial delivery, without retraction. For every
event the dispatch attempts media kinds in cascade order up to and
including the first kind accepted by every recipient; each attempted kind
keeps the deliveries that did succeed (nothing is retracted when the
cascade moves on), and the text-only alert is sent exactly when no kind is
fully accepted. Concretely: clip exhausted, snapshot accepted by only one
of two recipients — the thumbnail is still attempted, the snapshot
delivery is kept, and no text alert is sent. -/
theorem c3_cascade_partial_failure :
    (∀ (cfg : Config) (nowMinutes : Nat) (ev : Event) (fetch : MediaKind → Option Nat)
        (accept : MediaKind → String → Bool),
        processEventDispatch cfg nowMinutes ev fetch accept =
          { attempts :=
              mediaCascadeOrder.take
                (mediaCascadeOrder.findIdx
                  (stageSucceeds cfg nowMinutes ev fetch accept) + 1),
            mediaDeliveries :=
              (mediaCascadeOrder.take
                  (mediaCascadeOrder.findIdx
                    (stageSucceeds cfg nowMinutes ev fetch accept) + 1)).flatMap
                (stageDeliveries cfg nowMinutes ev fetch accept),
            textDeliveries :=
              if mediaCascadeOrder.findIdx (stageSucceeds cfg nowMinutes ev fetch accept) =
                  mediaCascadeOrder.length
              then sendTextAlertToGroups cfg nowMinutes ev else [] }) ∧
    processEventDispatch cascadeConfig 0 cascadeEvent cascadeFetch cascadeAccept =
      { attempts := [MediaKind.clip, MediaKind.snapshot, MediaKind.thumbnail],
        mediaDeliveries :=
          [(MediaKind.snapshot, "-10"), (MediaKind.thumbnail, "-10"),
           (MediaKind.thumbnail, "-20")],
        textDeliveries := [] } := by
  constructor
  · intro cfg nowMinutes ev fetch accept
    exact runCascade_closed cfg nowMinutes ev fetch accept mediaCascadeOrder
  · decide

/-- C9: dispatch with an empty eligible-recipient set. `sendMediaAlertToGroups`
returns false whatever the buffer and acceptance, so every fetched kind
counts as not-all-accepted and the cascade attempts the download of all
three kinds, delivering nothing; the final text step sends nothing because
`sendTextAlertToGroups` returns immediately on an empty recipient set. -/
theorem c9_empty_recipient_dispatch (cfg : Config) (nowMinutes : Nat) (ev : Event)
    (fetch : MediaKind → Option Nat) (accept : MediaKind → String → Bool)
    (h : getGroupsToAlert cfg nowMinutes ev = []) :
    (∀ (mediaBuffer : Nat) (acc : String → Bool),
        sendMediaAlertToGroups cfg nowMinutes ev mediaBuffer acc = (false, [])) ∧
    sendTextAlertToGroups cfg nowMinutes ev = [] ∧
    processEventDispatch cfg nowMinutes ev fetch accept =
      { attempts := mediaCascadeOrder, mediaDeliveries := [], textDeliveries := [] } := by
  have hsend : ∀ (mediaBuffer : Nat) (acc : String → Bool),
      sendMediaAlertToGroups cfg nowMinutes ev mediaBuffer acc = (false, []) := by
    intro mediaBuffer acc
    unfold sendMediaAlertToGroups
    simp [h]
  have htext : sendTextAlertToGroups cfg nowMinutes ev = [] := by
    unfold sendTextAlertToGroups
    simp [h]
  refine ⟨hsend, htext, ?_⟩
  have hfail : ∀ kind, stageSucceeds cfg nowMinutes ev fetch accept kind = false := by
    intro kind
    unfold stageSucceeds
    rcases hf : fetch kind with _ | buffer
    · rfl
    · simp [hsend]
  have hdeliver : ∀ kind, stageDeliveries cfg nowMinutes ev fetch accept kind = [] := by
    intro kind
    unfold stageDeliveries
    rcases hf : fetch kind with _ | buffer
    · rfl
    · simp [hsend]
  rw [processEventDispatch, runCascade_closed]
  simp [mediaCascadeOrder, List.findIdx_cons, hfail, hdeliver, htext]

/-- Configuration whose `default_groups` is the empty array (truthy in
JavaScript), so a camera without its own group list resolves to no
recipients. -/
def noRecipientConfig : Config :=
  { groups := [("g", { chat_id := some "-1", always_send := some true })],
    default_groups := some [] }

/-- An event whose camera has no configuration, falling back to the empty
default group list. -/
def noRecipientEvent : Event :=
  { id := "e9", camera := "cam", label := "person", start_time := 0 }

/-- Witness for C9 at a configuration with an empty default group list. -/
theorem c9_witness :
    processEventDispatch noRecipientConfig 0 noRecipientEvent (fun _ => some 2048)
        (fun _ _ => true) =
      { attempts := mediaCascadeOrder, mediaDeliveries := [], textDeliveries := [] } :=
  (c9_empty_recipient_dispatch noRecipientConfig 0 noRecipientEvent (fun _ => some 2048)
    (fun _ _ => true) (by decide)).2.2

/-- Acceptance where chat "-20" rejects the clip and everything else is
accepted. -/
def clipRejectAccept : MediaKind → String → Bool
  | .clip, chat => chat == "-10"
  | _, _ => true

/-- C8 counterexample: recipient "-20" rejected the clip (its media
delivery failed), the cascade then completed with the snapshot accepted by
all, and the program sent NO text message at all — there is no final
best-effort text fallback to the specific recipients whose media delivery
failed. -/
theorem c8_counterexample :
    (sendMediaAlertToGroups cascadeConfig 0 cascadeEvent 4096
        (clipRejectAccept MediaKind.clip)).1 = false ∧
    "-20" ∉ (sendMediaAlertToGroups cascadeConfig 0 cascadeEvent 4096
        (clipRejectAccept MediaKind.clip)).2 ∧
    (processEventDispatch cascadeConfig 0 cascadeEvent (fun _ => some 4096)
        clipRejectAccept).mediaDeliveries =
      [(MediaKind.clip, "-10"), (MediaKind.snapshot, "-10"), (MediaKind.snapshot, "-20")] ∧
    (processEventDispatch cascadeConfig 0 cascadeEvent (fun _ => some 4096)
        clipRejectAccept).textDeliveries = [] := by
  decide

/-- C8 as amended: once the cascade completes, a text alert exists only in
the full-exhaustion case — when no media kind was accepted by every
recipient — and that single degraded alert goes to every currently eligible
recipient; no text is addressed specifically to the recipients whose media
delivery failed. -/
theorem c8_text_fallback_only_on_exhaustion (cfg : Config) (nowMinutes : Nat) (ev : Event)
    (fetch : MediaKind → Option Nat) (accept : MediaKind → String → Bool) :
    (processEventDispatch cfg nowMinutes ev fetch accept).textDeliveries =
      (if mediaCascadeOrder.all
          (fun kind => !(stageSucceeds cfg nowMinutes ev fetch accept kind)) then
        sendTextAlertToGroups cfg nowMinutes ev
      else []) := by
  rw [processEventDispatch, runCascade_closed]
  by_cases h1 : stageSucceeds cfg nowMinutes ev fetch accept MediaKind.clip <;>
    by_cases h2 : stageSucceeds cfg nowMinutes ev fetch accept MediaKind.snapshot <;>
      by_cases h3 : stageSucceeds cfg nowMinutes ev fetch accept MediaKind.thumbnail <;>
        simp [mediaCascadeOrder, List.findIdx_cons, h1, h2, h3]

/-- Membership in the dispatch-time recipient set, characterized over the
camera's candidate group names. -/
theorem mem_getGroupsToAlert_names (cfg : Config) (nowMinutes : Nat) (ev : Event)
    (gName : String) :
    gName ∈ (getGroupsToAlert cfg nowMinutes ev).map (fun g => g.name) ↔
      (gName ∈ getGroupNamesForCamera cfg ev.camera ∧
       ((findGroup cfg gName).bind (fun g => g.enabled)) ≠ some false ∧
       strTruthy ((findGroup cfg gName).bind (fun g => g.chat_id)) = true ∧
       shouldAlertGroup cfg nowMinutes ev.camera gName = true) := by
  unfold getGroupsToAlert getGroupsForCamera
  simp only [List.map_map, List.mem_map, List.mem_filter, Function.comp]
  constructor
  · rintro ⟨a, ⟨⟨⟨n, ⟨hn, hen⟩, rfl⟩, hchat⟩, hsh⟩, hname⟩
    simp only at hname
    subst hname
    exact ⟨hn, by simpa using hen, hchat, hsh⟩
  · rintro ⟨hn, hen, hchat, hsh⟩
    exact ⟨{ name := gName, chat_id := (findGroup cfg gName).bind (fun g => g.chat_id) },
      ⟨⟨⟨gName, ⟨hn, by simpa using hen⟩, rfl⟩, hchat⟩, hsh⟩, rfl⟩

/-- `shouldAlertGroup` unfolded into the always-send / in-window
disjunction. -/
theorem shouldAlertGroup_iff (cfg : Config) (nowMinutes : Nat) (cameraName groupName : String) :
    shouldAlertGroup cfg nowMinutes cameraName groupName = true ↔
      ((getScheduleForCameraAndGroup cfg cameraName groupName).always_send = true ∨
       isWithinSchedule nowMinutes
         ((getScheduleForCameraAndGroup cfg cameraName groupName).start_time.getD "")
         ((getScheduleForCameraAndGroup cfg cameraName groupName).end_time.getD "") = true) := by
  unfold shouldAlertGroup
  by_cases h : (getScheduleForCameraAndGroup cfg cameraName groupName).always_send <;>
    simp [h]

/-- Configuration for the C5 counterexample: group "g2" is enabled, has a
chat id and `always_send`, but camera "cam" only lists "g1". -/
def membershipConfig : Config :=
  { groups := [("g1", { chat_id := some "-1", always_send := some true }),
               ("g2", { chat_id := some "-2", always_send := some true })],
    cameras := [("cam", { groups := some ["g1"] })] }

/-- An event on the camera that only lists "g1". -/
def membershipEvent : Event :=
  { id := "e5", camera := "cam", label := "person", start_time := 0 }

/-- C5 counterexample: group "g2" has a configured chat id, is enabled and
has `always_send = true` for the resolved schedule, yet the recipient set
computed at dispatch time does not contain it — because "g2" is not among
the camera's configured group names. The claim's if-and-only-if fails in
the right-to-left direction. -/
theorem c5_counterexample :
    strTruthy ((findGroup membershipConfig "g2").bind (fun g => g.chat_id)) = true ∧
    ((findGroup membershipConfig "g2").bind (fun g => g.enabled)) ≠ some false ∧
    (getScheduleForCameraAndGroup membershipConfig membershipEvent.camera "g2").always_send =
      true ∧
    "g2" ∉ (getGroupsToAlert membershipConfig 0 membershipEvent).map (fun g => g.name) := by
  refine ⟨by decide, by decide, by decide, by decide⟩

/-- C5 as amended: for configurations whose effective default schedule has
both time fields (the corner the JavaScript would crash on otherwise), the
dispatch-time recipient set contains a group iff the group is among the
camera's configured group names (camera list, else default list, else all
groups) AND has a truthy chat id AND is not disabled AND its resolved
schedule has `always_send` or contains the current time. The set is
recomputed from the configuration by each send (`sendMediaAlertToGroups`
and `sendTextAlertToGroups` both start from `getGroupsToAlert`). -/
theorem c5_recipient_membership (cfg : Config) (nowMinutes : Nat) (ev : Event)
    (gName : String)
    (hwf : (cfg.default_schedule.getD builtinDefaultSchedule).start_time.isSome = true ∧
           (cfg.default_schedule.getD builtinDefaultSchedule).end_time.isSome = true) :
    gName ∈ (getGroupsToAlert cfg nowMinutes ev).map (fun g => g.name) ↔
      (gName ∈ getGroupNamesForCamera cfg ev.camera ∧
       strTruthy ((findGroup cfg gName).bind (fun g => g.chat_id)) = true ∧
       ((findGroup cfg gName).bind (fun g => g.enabled)) ≠ some false ∧
       ((getScheduleForCameraAndGroup cfg ev.camera gName).always_send = true ∨
        isWithinSchedule nowMinutes
          ((getScheduleForCameraAndGroup cfg ev.camera gName).start_time.getD "")
          ((getScheduleForCameraAndGroup cfg ev.camera gName).end_time.getD "") = true)) := by
  rw [mem_getGroupsToAlert_names]
  rw [shouldAlertGroup_iff]
  tauto

/-- Witness for C5: group "g1" is a recipient at the concrete
configuration, via the amended characterization. -/
theorem c5_witness :
    "g1" ∈ (getGroupsToAlert membershipConfig 0 membershipEvent).map (fun g => g.name) := by
  have h := (c5_recipient_membership membershipConfig 0 membershipEvent "g1"
    ⟨by decide, by decide⟩).2
  exact h ⟨by decide, by decide, by decide, Or.inl (by decide)⟩

/-- When every remaining attempt fails, the retry loop throws and sleeps a
linear backoff before each retry: delays `baseDelay * k` for the failed
attempts `k` that have a successor. -/
theorem downloadWithRetryGo_all_fail (fn : Nat → Except String Nat) (baseDelay total : Nat) :
    ∀ (remaining attempt : Nat) (lastError : String),
      attempt + remaining = total + 1 → 1 ≤ attempt →
      (∀ j, attempt ≤ j → j ≤ total → attemptFails fn j = true) →
      (∃ e, (downloadWithRetryGo fn baseDelay total lastError attempt remaining).1 =
        Except.error e) ∧
      (downloadWithRetryGo fn baseDelay total lastError attempt remaining).2 =
        (List.range' attempt (total - attempt)).map (fun k => baseDelay * k) := by
  intro remaining
  induction remaining with
  | zero =>
    intro attempt lastError htotal hpos hfails
    refine ⟨⟨lastError, rfl⟩, ?_⟩
    have hz : total - attempt = 0 := by omega
    simp [downloadWithRetryGo, hz]
  | succ r ih =>
    intro attempt lastError htotal hpos hfails
    have hle : attempt ≤ total := by omega
    have hfa : attemptFails fn attempt = true := hfails attempt le_rfl hle
    rcases ho : attemptOutcome fn attempt with e | s
    · unfold downloadWithRetryGo
      rw [ho]
      by_cases hlt : attempt < total
      · have hrec := ih (attempt + 1) e (by omega) (by omega)
          (fun j hj1 hj2 => hfails j (by omega) hj2)
        simp only [hlt, if_pos]
        refine ⟨hrec.1, ?_⟩
        have hcount : total - attempt = (total - (attempt + 1)) + 1 := by omega
        rw [hcount, List.range'_succ]
        simp [hrec.2]
      · have heq : attempt = total := by omega
        have hz : total - attempt = 0 := by omega
        simp [hlt, hz]
    · rw [attemptFails, ho] at hfa
      simp at hfa

/-- C6: bounded retry with linear backoff. An undersized body (below the
1024-byte `MIN_BUFFER_SIZE`) counts as a failed attempt, and when every
attempt of the budget fails the operation throws its last error after
having slept `baseDelay * k` before each retry, the k-th delay of the
sequence being `baseDelay * k` — so the download is attempted exactly
`attempts` times before the cascade moves on. -/
theorem c6_retry_budget :
    (∀ (fn : Nat → Except String Nat) (k s : Nat), fn k = Except.ok s →
        s < MIN_BUFFER_SIZE → attemptFails fn k = true) ∧
    (∀ (fn : Nat → Except String Nat) (baseDelay attempts : Nat), 1 ≤ attempts →
        (∀ j, j < attempts → attemptFails fn (j + 1) = true) →
        (∃ e, (downloadWithRetry fn baseDelay attempts).1 = Except.error e) ∧
        (downloadWithRetry fn baseDelay attempts).2 =
          (List.range' 1 (attempts - 1)).map (fun k => baseDelay * k)) := by
  constructor
  · intro fn k s hok hsmall
    rw [attemptFails, attemptOutcome, hok]
    simp [hsmall]
  · intro fn baseDelay attempts hpos hfails
    have h := downloadWithRetryGo_all_fail fn baseDelay attempts attempts 1 "undefined"
      (by omega) le_rfl
      (fun j hj1 hj2 => by
        have := hfails (j - 1) (by omega)
        rwa [Nat.sub_add_cancel hj1] at this)
    exact h

/-- A fetch whose first call returns a 10-byte body (under the minimum
size) and whose later calls throw. -/
def smallThenFailFetch : Nat → Except String Nat :=
  fun k => if k = 1 then Except.ok 10 else Except.error "network error"

/-- Witness for C6: a two-attempt budget against the undersized-then-error
fetch spends both attempts, sleeps one backoff delay of `3000 * 1`, and
ends in a throw. -/
theorem c6_witness :
    attemptFails smallThenFailFetch 1 = true ∧
    (downloadWithRetry smallThenFailFetch 3000 2).2 = [3000] ∧
    (∃ e, (downloadWithRetry smallThenFailFetch 3000 2).1 = Except.error e) := by
  have hsmall := c6_retry_budget.1 smallThenFailFetch 1 10 rfl (by decide)
  have h := c6_retry_budget.2 smallThenFailFetch 3000 2 (by decide) (by decide)
  exact ⟨hsmall, h.2.trans (by decide), h.1⟩

/-- An event with a clip whose recording has not finished. -/
def clipEventNoEnd : Event :=
  { id := "ec", camera := "cam", label := "person", start_time := 1000, end_time := none,
    has_clip := true }

/-- C7 counterexample: the two code paths that synthesize a placeholder end
time disagree on the same event — `processEvent` fills in
`start_time + 5` while `downloadVideo` fills in `start_time + 17`, and
both constants are hard-coded — so the synthesis constant is not a single
configurable value. -/
theorem c7_counterexample :
    (processEventClipPrep clipEventNoEnd).2.end_time = some 1005 ∧
    (downloadVideoPrep clipEventNoEnd).2.end_time = some 1017 ∧
    some (1005 : Nat) ≠ some (1017 : Nat) := by
  decide

/-- C7 as amended: whenever a clip is requested for an event whose
`end_time` is absent, the program waits a fixed delay and synthesizes
`end_time = start_time + constant` before issuing the request — but the
constant is not one configurable value: the pre-wait path in
`processEvent` waits 7 s and adds 5 s, the direct-fetch path in
`downloadVideo` waits 20 s and adds 17 s, and the two constants differ. -/
theorem c7_placeholder_end_time (ev : Event) (h : ev.end_time = none) :
    downloadVideoPrep ev =
      (CLIP_FETCH_WAIT_MS,
        { ev with end_time := some (ev.start_time + CLIP_FETCH_PLACEHOLDER_SECONDS) }) ∧
    (ev.has_clip = true →
      processEventClipPrep ev =
        (CLIP_PREWAIT_DELAY_MS,
          { ev with end_time := some (ev.start_time + CLIP_PREWAIT_PLACEHOLDER_SECONDS) })) ∧
    CLIP_PREWAIT_PLACEHOLDER_SECONDS ≠ CLIP_FETCH_PLACEHOLDER_SECONDS := by
  refine ⟨?_, ?_, by decide⟩
  · unfold downloadVideoPrep endTimeTruthy
    simp [h]
  · intro hc
    unfold processEventClipPrep endTimeTruthy
    simp [h, hc]

/-- Witness for C7 at the concrete unfinished-clip event. -/
theorem c7_witness :
    downloadVideoPrep clipEventNoEnd = (20000, { clipEventNoEnd with end_time := some 1017 }) ∧
    processEventClipPrep clipEventNoEnd =
      (7000, { clipEventNoEnd with end_time := some 1005 }) := by
  have h := c7_placeholder_end_time clipEventNoEnd rfl
  exact ⟨h.1.trans (by decide), (h.2.1 rfl).trans (by decide)⟩

end FrigateAlerts
